import Mathlib

/-
  Shallow embedding of bevy_http_client (src/lib.rs, src/typed.rs).

  The plugin is glue between a host ECS scheduler (bevy), an async HTTP
  transport (ehttp::fetch_async) and a JSON serializer (serde_json).  The
  external collaborators are modelled abstractly: serialization and
  deserialization results are passed in as parameters, entities are numeric
  ids, and the bevy event buffer is an explicit list consumed by the
  dispatch systems.
-/

namespace BevyHttp

/-- Entities of the host ECS, identified by numeric ids. -/
abbrev Entity := Nat

/-- ehttp header set: an ordered list of key-value pairs.  External
collaborator type; its exact insert semantics decide no claim here. -/
structure Headers where
  pairs : List (String × String)
deriving Repr, DecidableEq

/-- ehttp Headers::new from a slice of pairs. -/
def Headers.new (l : List (String × String)) : Headers := ⟨l⟩

/-- ehttp Headers::insert appends a key-value pair. -/
def Headers.insert (h : Headers) (key value : String) : Headers :=
  ⟨h.pairs ++ [(key, value)]⟩

/-- ehttp::Request (non-wasm fields). -/
structure Request where
  method : String
  url : String
  body : List UInt8
  headers : Headers
deriving Repr, DecidableEq

/-- ehttp::Response: the raw transport response. -/
structure Response where
  url : String
  ok : Bool
  status : Nat
  status_text : String
  bytes : List UInt8
  headers : Headers
deriving Repr, DecidableEq

/-- src/lib.rs JsonFallback: fallback strategy when JSON serialization fails. -/
inductive JsonFallback where
  | EmptyObject
  | EmptyArray
  | Null
  | Custom (data : List UInt8)
deriving Repr, DecidableEq

/-- src/lib.rs JsonSerializationError. -/
inductive JsonSerializationError where
  | SerializationFailed (message : String) (fallback_used : JsonFallback)
deriving Repr, DecidableEq

/-- src/lib.rs HttpClientBuilderError. -/
inductive HttpClientBuilderError where
  | MissingMethod
  | MissingUrl
  | MissingHeaders
deriving Repr, DecidableEq

/-- The bytes of the b"\x7b\x7d" empty-object fallback literal in json_with_fallback. -/
def jsonEmptyObjectBytes : List UInt8 := [123, 125]

/-- The bytes of the b"[]" empty-array fallback literal in json_with_fallback. -/
def jsonEmptyArrayBytes : List UInt8 := [91, 93]

/-- The bytes of the b"null" fallback literal in json_with_fallback. -/
def jsonNullBytes : List UInt8 := [110, 117, 108, 108]

/-- The fallback bytes chosen by the match on the fallback strategy
in json_with_fallback (src/lib.rs lines 437-442). -/
def JsonFallback.fallbackData : JsonFallback → List UInt8
  | .EmptyObject => jsonEmptyObjectBytes
  | .EmptyArray => jsonEmptyArrayBytes
  | .Null => jsonNullBytes
  | .Custom data => data

/-- src/lib.rs HttpClient: the request builder (non-wasm fields). -/
structure HttpClient where
  from_entity : Option Entity
  method : Option String
  url : Option String
  body : List UInt8
  headers : Option Headers
deriving Repr, DecidableEq

/-- impl Default for HttpClient (src/lib.rs lines 166-178). -/
def HttpClient.default : HttpClient :=
  { from_entity := none
    method := none
    url := none
    body := []
    headers := some (Headers.new [("Accept", "*/*")]) }

/-- HttpClient::new. -/
def HttpClient.new : HttpClient := HttpClient.default

/-- HttpClient::new_with_entity. -/
def HttpClient.new_with_entity (e : Entity) : HttpClient :=
  { HttpClient.default with from_entity := some e }

/-- HttpClient::get. -/
def HttpClient.get (c : HttpClient) (url : String) : HttpClient :=
  { c with method := some "GET", url := some url }

/-- HttpClient::post. -/
def HttpClient.post (c : HttpClient) (url : String) : HttpClient :=
  { c with method := some "POST", url := some url }

/-- HttpClient::put. -/
def HttpClient.put (c : HttpClient) (url : String) : HttpClient :=
  { c with method := some "PUT", url := some url }

/-- HttpClient::patch. -/
def HttpClient.patch (c : HttpClient) (url : String) : HttpClient :=
  { c with method := some "PATCH", url := some url }

/-- HttpClient::delete. -/
def HttpClient.delete (c : HttpClient) (url : String) : HttpClient :=
  { c with method := some "DELETE", url := some url }

/-- HttpClient::head. -/
def HttpClient.head (c : HttpClient) (url : String) : HttpClient :=
  { c with method := some "HEAD", url := some url }

/-- HttpClient::headers (the fluent setter; renamed because the field
projection already carries the source name). -/
def HttpClient.set_headers (c : HttpClient) (hs : List (String × String)) : HttpClient :=
  { c with headers := some (Headers.new hs) }

/-- HttpClient::entity. -/
def HttpClient.entity (c : HttpClient) (e : Entity) : HttpClient :=
  { c with from_entity := some e }

/-- HttpClient::request (non-wasm): copies every request field into the builder. -/
def HttpClient.request (c : HttpClient) (r : Request) : HttpClient :=
  { c with method := some r.method, url := some r.url, body := r.body,
           headers := some r.headers }

/-- The Content-Type header update shared by json_with_fallback and json_safe
(src/lib.rs lines 412-420 and 485-493): insert into existing headers, or
start a fresh header set when none are present. -/
def HttpClient.setJsonContentType (c : HttpClient) : HttpClient :=
  match c.headers with
  | some hs => { c with headers := some (hs.insert "Content-Type" "application/json") }
  | none =>
    let fresh := Headers.new [("Content-Type", "application/json"), ("Accept", "*/*")]
    { c with headers := some fresh }

/-- HttpClient::json_with_fallback (src/lib.rs lines 407-456).
serde_json::to_vec is the external serializer; its outcome on the given body
is passed as `ser` (ok bytes, or the serializer error message).  An oversize
payload only logs a warning and proceeds, so it leaves no trace in the state. -/
def HttpClient.json_with_fallback (c : HttpClient) (ser : Except String (List UInt8))
    (fallback : JsonFallback) : HttpClient :=
  let c1 := c.setJsonContentType
  match ser with
  | .ok bytes => { c1 with body := bytes }
  | .error _ => { c1 with body := fallback.fallbackData }

/-- HttpClient::json_safe (src/lib.rs lines 481-504): result-returning
serialization; on failure the recorded fallback is always EmptyObject. -/
def HttpClient.json_safe (c : HttpClient) (ser : Except String (List UInt8)) :
    Except JsonSerializationError HttpClient :=
  let c1 := c.setJsonContentType
  match ser with
  | .ok bytes => .ok { c1 with body := bytes }
  | .error e => .error (.SerializationFailed e .EmptyObject)

/-- HttpClient::json: delegates to json_with_fallback with the default
EmptyObject strategy. -/
def HttpClient.json (c : HttpClient) (ser : Except String (List UInt8)) : HttpClient :=
  c.json_with_fallback ser .EmptyObject

/-- Rust char::is_whitespace: the Unicode White_Space property. -/
def rustIsWhitespace (c : Char) : Bool :=
  decide (c.toNat = 0x09) || decide (c.toNat = 0x0A) || decide (c.toNat = 0x0B) ||
  decide (c.toNat = 0x0C) || decide (c.toNat = 0x0D) || decide (c.toNat = 0x20) ||
  decide (c.toNat = 0x85) || decide (c.toNat = 0xA0) || decide (c.toNat = 0x1680) ||
  (decide (0x2000 ≤ c.toNat) && decide (c.toNat ≤ 0x200A)) ||
  decide (c.toNat = 0x2028) || decide (c.toNat = 0x2029) || decide (c.toNat = 0x202F) ||
  decide (c.toNat = 0x205F) || decide (c.toNat = 0x3000)

/-- Rust str::trim: strip leading and trailing Unicode whitespace. -/
def rustTrim (s : String) : String :=
  ⟨((s.data.dropWhile rustIsWhitespace).reverse.dropWhile rustIsWhitespace).reverse⟩

/-- src/lib.rs HttpRequest: the request envelope event. -/
structure HttpRequest where
  from_entity : Option Entity
  request : Request
deriving Repr, DecidableEq

/-- src/typed.rs TypedRequest (the type parameter is PhantomData and
carries no data, so the envelope itself is untyped). -/
structure TypedRequest where
  from_entity : Option Entity
  request : Request
deriving Repr, DecidableEq

/-- HttpClient::try_build (src/lib.rs lines 715-734): validated build.
Checks method, then a non-blank URL (Option::filter with !trim().is_empty()),
then headers. -/
def HttpClient.try_build (c : HttpClient) : Except HttpClientBuilderError HttpRequest :=
  match c.method with
  | none => .error .MissingMethod
  | some method =>
    match c.url.filter (fun u => !(rustTrim u).isEmpty) with
    | none => .error .MissingUrl
    | some url =>
      match c.headers with
      | none => .error .MissingHeaders
      | some headers =>
        .ok { from_entity := c.from_entity
              request := { method := method, url := url, body := c.body, headers := headers } }

/-- HttpClient::try_with_type (src/lib.rs lines 785-806): the same
validation sequence as try_build, producing a TypedRequest envelope. -/
def HttpClient.try_with_type (c : HttpClient) : Except HttpClientBuilderError TypedRequest :=
  match c.method with
  | none => .error .MissingMethod
  | some method =>
    match c.url.filter (fun u => !(rustTrim u).isEmpty) with
    | none => .error .MissingUrl
    | some url =>
      match c.headers with
      | none => .error .MissingHeaders
      | some headers =>
        .ok { from_entity := c.from_entity
              request := { method := method, url := url, body := c.body, headers := headers } }

/-- src/lib.rs HttpClientSetting: the concurrency budget resource. -/
structure HttpClientSetting where
  client_limits : Nat
  current_clients : Nat
deriving Repr, DecidableEq

/-- impl Default for HttpClientSetting (limit 5, zero in flight). -/
def HttpClientSetting.default : HttpClientSetting :=
  { client_limits := 5, current_clients := 0 }

/-- HttpClientSetting::new. -/
def HttpClientSetting.new (max_concurrent : Nat) : HttpClientSetting :=
  { client_limits := max_concurrent, current_clients := 0 }

/-- HttpClientSetting::is_available (src/lib.rs lines 131-136). -/
def HttpClientSetting.is_available (s : HttpClientSetting) : Bool :=
  decide (s.current_clients < s.client_limits)

/-- Resolution of the owning identity at dispatch (src/lib.rs lines 842-846,
src/typed.rs lines 220-224): reuse the caller-supplied entity, or take the
freshly spawned empty entity; the Bool is has_from_entity. -/
def resolveIdentity (from_entity : Option Entity) (fresh : Entity) : Entity × Bool :=
  match from_entity with
  | some entity => (entity, true)
  | none => (fresh, false)

/-- State of one dispatch loop: the budget resource plus the requests
accepted (spawned) so far this tick, in observation order. -/
structure DispatchResult (ρ : Type) where
  setting : HttpClientSetting
  accepted : List ρ
deriving Repr, DecidableEq

/-- One iteration of the dispatch loop body (src/lib.rs lines 839-892,
src/typed.rs lines 218-305): when the budget is available the request is
accepted (task spawned, modelled by recording the envelope) and the counter
incremented; otherwise the loop body does nothing for this event. -/
def dispatchStep {ρ : Type} (acc : DispatchResult ρ) (req : ρ) : DispatchResult ρ :=
  if acc.setting.is_available then
    { setting := { acc.setting with current_clients := acc.setting.current_clients + 1 }
      accepted := acc.accepted ++ [req] }
  else acc

/-- The system handle_request (src/lib.rs lines 832-894): iterates the
events yielded by EventReader::read this tick. -/
def handle_request (s : HttpClientSetting) (events : List HttpRequest) :
    DispatchResult HttpRequest :=
  events.foldl dispatchStep { setting := s, accepted := [] }

/-- The system handle_typed_request (src/typed.rs lines 211-307): the
per-type instance iterates the messages read this tick; the guard and the
counter update are identical to handle_request. -/
def handle_typed_request (s : HttpClientSetting) (messages : List TypedRequest) :
    DispatchResult TypedRequest :=
  messages.foldl dispatchStep { setting := s, accepted := [] }

/-- The dispatch system together with the bevy event-buffer semantics:
EventReader::read yields every not-yet-seen event and advances the reader
cursor past each yielded event, so after the for loop every observed event
is consumed whether or not it was accepted.  The state carries the events
this reader has not yet seen; the returned list is the accepted requests. -/
structure EventBufferState where
  setting : HttpClientSetting
  pending : List HttpRequest
deriving Repr, DecidableEq

/-- One dispatch tick over the event buffer: the reader observes all
pending events plus the newly written ones, and consumes them all. -/
def dispatchTick (st : EventBufferState) (newEvents : List HttpRequest) :
    EventBufferState × List HttpRequest :=
  let r := handle_request st.setting (st.pending ++ newEvents)
  ({ setting := r.setting, pending := [] }, r.accepted)

/-- The system handle_tasks (src/lib.rs lines 915-926): each RequestTask
whose channel yields a finished command queue is applied and the counter
decremented once; `received` is how many channels yielded a queue this
tick (at most one per task entity). -/
def handle_tasks (s : HttpClientSetting) (received : Nat) : HttpClientSetting :=
  { s with current_clients := s.current_clients - received }

/-- Raw-path terminal emissions (the closure pushed onto the CommandQueue in
handle_request, src/lib.rs lines 855-883). -/
inductive RawEmission where
  | success (resp : Response)
  | failure (err : String)
deriving Repr, DecidableEq

/-- Effect of applying the raw-path terminal command queue against the
world: the broadcast events sent, the per-entity observer triggers, and the
entity despawned (when the identity was transient). -/
structure RawCompletion where
  broadcast : List RawEmission
  triggered : List (Entity × RawEmission)
  despawned : Option Entity
deriving Repr, DecidableEq

/-- The raw-path terminal command (src/lib.rs lines 855-883): on transport
success the response is sent as a broadcast event and triggered at the
owning entity; on transport failure likewise with the error message; in
both cases a transient identity is despawned afterwards.  The events
resources exist in any app built by HttpClientPlugin, so the logged-error
branches for a missing resource do not arise here. -/
def applyRawResult (result : Except String Response) (entity : Entity)
    (has_from_entity : Bool) : RawCompletion :=
  let despawned := if has_from_entity then none else some entity
  match result with
  | .ok res =>
    { broadcast := [.success res], triggered := [(entity, .success res)]
      despawned := despawned }
  | .error e =>
    { broadcast := [.failure e], triggered := [(entity, .failure e)]
      despawned := despawned }

/-- Typed-path terminal emissions, parameterized by the declared response
type: a parsed success value, or a failure message with an optional raw
response (src/typed.rs TypedResponse and TypedResponseError). -/
inductive TypedEmission (T : Type) where
  | success (v : T)
  | failure (err : String) (response : Option Response)
deriving Repr, DecidableEq

/-- The raw bytes recoverable from a typed emission: present exactly when a
raw response is attached to a failure envelope. -/
def TypedEmission.rawBytes {T : Type} : TypedEmission T → Option (List UInt8)
  | .failure _ (some r) => some r.bytes
  | _ => none

/-- Effect of applying the typed-path terminal command queue against the
world: broadcast messages written, per-entity observer triggers, and the
despawned transient identity. -/
structure TypedCompletion (T : Type) where
  broadcast : List (TypedEmission T)
  triggered : List (Entity × TypedEmission T)
  despawned : Option Entity
deriving Repr, DecidableEq

/-- The typed-path terminal command (src/typed.rs lines 232-296).
`decode` is serde_json::from_slice at the declared type.  On transport
success with parse success, a typed response is both written to the
broadcast message channel and triggered at the owning entity; on parse
failure, a typed error carrying the message and the original response is
likewise written and triggered; on transport failure, a typed error with
the message and no response is only written to the broadcast channel (the
source has no trigger call in that branch).  A transient identity is
despawned afterwards in every branch. -/
def applyTypedResult {T : Type} (decode : List UInt8 → Except String T)
    (result : Except String Response) (entity : Entity)
    (has_from_entity : Bool) : TypedCompletion T :=
  let despawned := if has_from_entity then none else some entity
  match result with
  | .ok response =>
    match decode response.bytes with
    | .ok inner =>
      { broadcast := [.success inner], triggered := [(entity, .success inner)]
        despawned := despawned }
    | .error e =>
      { broadcast := [.failure e (some response)]
        triggered := [(entity, .failure e (some response))]
        despawned := despawned }
  | .error e =>
    { broadcast := [.failure e none], triggered := []
      despawned := despawned }

/-- Reachable states of the budget resource between ticks, paired with the
number of accepted-but-uncompleted background tasks.  The resource starts
from HttpClientSetting::new (Default is new 5) and is mutated only by the
dispatch systems (handle_request and the per-type handle_typed_request
instances) and the completion system handle_tasks; a completion tick can
receive at most one finished queue per in-flight task. -/
inductive Reachable : HttpClientSetting → Nat → Prop where
  | init (max_concurrent : Nat) : Reachable (HttpClientSetting.new max_concurrent) 0
  | dispatch {s : HttpClientSetting} {inflight : Nat} (events : List HttpRequest) :
      Reachable s inflight →
      Reachable (handle_request s events).setting
        (inflight + (handle_request s events).accepted.length)
  | typedDispatch {s : HttpClientSetting} {inflight : Nat} (messages : List TypedRequest) :
      Reachable s inflight →
      Reachable (handle_typed_request s messages).setting
        (inflight + (handle_typed_request s messages).accepted.length)
  | complete {s : HttpClientSetting} {inflight : Nat} (received : Nat) :
      Reachable s inflight → received ≤ inflight →
      Reachable (handle_tasks s received) (inflight - received)

/-- The fluent operations of the public builder API that produce an
HttpClient from an HttpClient (src/lib.rs impl HttpClient).  The json
operations carry the external serializer's outcome as data. -/
inductive BuilderOp where
  | get (url : String)
  | post (url : String)
  | put (url : String)
  | patch (url : String)
  | delete (url : String)
  | head (url : String)
  | set_headers (hs : List (String × String))
  | json_with_fallback (ser : Except String (List UInt8)) (fallback : JsonFallback)
  | json (ser : Except String (List UInt8))
  | entity (e : Entity)
  | request (r : Request)

/-- Apply one fluent builder operation. -/
def applyOp (c : HttpClient) : BuilderOp → HttpClient
  | .get url => c.get url
  | .post url => c.post url
  | .put url => c.put url
  | .patch url => c.patch url
  | .delete url => c.delete url
  | .head url => c.head url
  | .set_headers hs => c.set_headers hs
  | .json_with_fallback ser fallback => c.json_with_fallback ser fallback
  | .json ser => c.json ser
  | .entity e => c.entity e
  | .request r => c.request r

/-- A builder obtained from HttpClient::new by a chain of fluent operations. -/
def buildChain (ops : List BuilderOp) : HttpClient :=
  ops.foldl applyOp HttpClient.new

/-- Sample request envelope used to instantiate universally quantified
results on concrete inputs. -/
def demoRequest : HttpRequest :=
  { from_entity := none
    request := { method := "GET", url := "http://example.com", body := []
                 headers := Headers.new [("Accept", "*/*")] } }

/-- A second sample request envelope, distinguishable from demoRequest. -/
def demoRequest2 : HttpRequest :=
  { from_entity := none
    request := { method := "GET", url := "http://example.org", body := []
                 headers := Headers.new [("Accept", "*/*")] } }

/-- Sample raw transport response. -/
def demoResponse : Response :=
  { url := "http://example.com", ok := true, status := 200, status_text := "OK"
    bytes := [104, 105], headers := Headers.new [] }

/-- Characterization of the dispatch loop fold: the limit is untouched, the
accepted envelopes are exactly the first limit-minus-current observed ones in
order, and the counter grows by the number accepted. -/
theorem dispatch_foldl_spec {ρ : Type} (events : List ρ) : ∀ acc : DispatchResult ρ,
    (events.foldl dispatchStep acc).setting.client_limits = acc.setting.client_limits
    ∧ (events.foldl dispatchStep acc).accepted
        = acc.accepted ++ events.take (acc.setting.client_limits - acc.setting.current_clients)
    ∧ (events.foldl dispatchStep acc).setting.current_clients
        = acc.setting.current_clients
          + (events.take (acc.setting.client_limits - acc.setting.current_clients)).length := by
  induction events with
  | nil => intro acc; simp
  | cons e evs ih =>
    intro acc
    by_cases h : acc.setting.current_clients < acc.setting.client_limits
    · have hstep : dispatchStep acc e =
        { setting := { acc.setting with current_clients := acc.setting.current_clients + 1 }
          accepted := acc.accepted ++ [e] } := by
        simp [dispatchStep, HttpClientSetting.is_available, h]
      have hcap : acc.setting.client_limits - acc.setting.current_clients
          = (acc.setting.client_limits - (acc.setting.current_clients + 1)) + 1 := by omega
      obtain ⟨ih1, ih2, ih3⟩ := ih (dispatchStep acc e)
      rw [hstep] at ih1 ih2 ih3
      simp only [List.foldl_cons, hstep]
      refine ⟨by simpa using ih1, ?_, ?_⟩
      · rw [ih2, hcap, List.take_succ_cons]
        simp
      · rw [ih3, hcap, List.take_succ_cons]
        simp
        omega
    · have hstep : dispatchStep acc e = acc := by
        simp [dispatchStep, HttpClientSetting.is_available, h]
      have hcap : acc.setting.client_limits - acc.setting.current_clients = 0 := by omega
      obtain ⟨ih1, ih2, ih3⟩ := ih acc
      rw [hcap] at ih2 ih3
      simp only [List.foldl_cons, hstep, hcap]
      exact ⟨ih1, by simpa using ih2, by simpa using ih3⟩

/-- handle_request characterized on an arbitrary starting budget. -/
theorem handle_request_spec (s : HttpClientSetting) (events : List HttpRequest) :
    (handle_request s events).setting.client_limits = s.client_limits
    ∧ (handle_request s events).accepted
        = events.take (s.client_limits - s.current_clients)
    ∧ (handle_request s events).setting.current_clients
        = s.current_clients + (events.take (s.client_limits - s.current_clients)).length := by
  have h := dispatch_foldl_spec events { setting := s, accepted := ([] : List HttpRequest) }
  simpa [handle_request] using h

/-- handle_typed_request characterized on an arbitrary starting budget. -/
theorem handle_typed_request_spec (s : HttpClientSetting) (messages : List TypedRequest) :
    (handle_typed_request s messages).setting.client_limits = s.client_limits
    ∧ (handle_typed_request s messages).accepted
        = messages.take (s.client_limits - s.current_clients)
    ∧ (handle_typed_request s messages).setting.current_clients
        = s.current_clients + (messages.take (s.client_limits - s.current_clients)).length := by
  have h := dispatch_foldl_spec messages { setting := s, accepted := ([] : List TypedRequest) }
  simpa [handle_typed_request] using h

/-- C1, counterexample.  With a limit of one, two requests observed in the
same tick: the second is observed at capacity, is consumed by the event
reader (nothing remains pending), and even after a completion frees the
budget the next tick dispatches nothing — the deferred request was dropped,
not retried, contradicting the claim that it remains pending and is retried
on a subsequent tick. -/
theorem C1_counterexample :
    ((dispatchTick { setting := HttpClientSetting.new 1, pending := [] }
        [demoRequest, demoRequest2]).2 = [demoRequest])
    ∧ ((dispatchTick { setting := HttpClientSetting.new 1, pending := [] }
        [demoRequest, demoRequest2]).1.pending = [])
    ∧ ((dispatchTick
        { setting := handle_tasks (dispatchTick { setting := HttpClientSetting.new 1, pending := [] }
            [demoRequest, demoRequest2]).1.setting 1
          pending := (dispatchTick { setting := HttpClientSetting.new 1, pending := [] }
            [demoRequest, demoRequest2]).1.pending } []).2 = []) :=
  ⟨rfl, rfl, rfl⟩

/-- C1, amended.  Each tick, dispatch accepts same-tick exactly the first
limit-minus-current observed request envelopes, in observation order (so
every request observed while the count is below the maximum is accepted and
counted that tick); a request observed at or above the maximum is consumed
by the event reader without being dispatched, and since nothing remains
pending after the tick it is never retried on a subsequent tick — it is
dropped.  The same holds for the typed dispatch instances. -/
theorem C1_amended_dispatch (s : HttpClientSetting) (events : List HttpRequest)
    (messages : List TypedRequest) :
    (handle_request s events).accepted
        = events.take (s.client_limits - s.current_clients)
    ∧ (handle_typed_request s messages).accepted
        = messages.take (s.client_limits - s.current_clients)
    ∧ (dispatchTick { setting := s, pending := events } []).1.pending = [] :=
  ⟨(handle_request_spec s events).2.1, (handle_typed_request_spec s messages).2.1, rfl⟩

/-- C3.  The concurrency-budget invariant: in every state of the budget
resource reachable from initialization through the dispatch systems (which
increment only when strictly below the limit) and the completion system
(which decrements once per received completed task), the in-flight count
never exceeds the configured limit. -/
theorem C3_budget_invariant (s : HttpClientSetting) (inflight : Nat)
    (h : Reachable s inflight) : s.current_clients ≤ s.client_limits := by
  induction h with
  | init n => exact Nat.zero_le n
  | dispatch events hr ih =>
    rename_i s' inflight'
    obtain ⟨hl, ha, hc⟩ := handle_request_spec s' events
    rw [List.length_take] at hc
    omega
  | typedDispatch messages hr ih =>
    rename_i s' inflight'
    obtain ⟨hl, ha, hc⟩ := handle_typed_request_spec s' messages
    rw [List.length_take] at hc
    omega
  | complete received hr hle ih =>
    simp only [handle_tasks]
    omega

/-- C3, witness: a concrete reachable state (limit one, two submissions in
one tick) satisfies the invariant. -/
theorem C3_witness :
    (handle_request (HttpClientSetting.new 1) [demoRequest, demoRequest2]).setting.current_clients
      ≤ (handle_request (HttpClientSetting.new 1) [demoRequest, demoRequest2]).setting.client_limits :=
  C3_budget_invariant _ _ (Reachable.dispatch [demoRequest, demoRequest2] (Reachable.init 1))

/-- C2, counterexample.  A concrete transport failure on the typed path:
the typed failure envelope (with the transport message and no raw response)
is written to the broadcast message channel, but the per-identity trigger
list is empty — the direct delivery path is not exercised, contradicting
the claim that both paths are used simultaneously. -/
theorem C2_counterexample :
    ((applyTypedResult (T := Nat) (fun _ => Except.error "unused")
        (Except.error "connection refused") 7 true).triggered = [])
    ∧ ((applyTypedResult (T := Nat) (fun _ => Except.error "unused")
        (Except.error "connection refused") 7 true).broadcast
          = [TypedEmission.failure "connection refused" none]) :=
  ⟨rfl, rfl⟩

/-- C2, amended.  On transport failure the typed path emits the failure
envelope carrying the transport error message and no raw response through
the broadcast message channel only; no direct per-identity delivery is
performed in that branch. -/
theorem C2_amended_transport_failure (T : Type) (decode : List UInt8 → Except String T)
    (e : String) (entity : Entity) (has_from_entity : Bool) :
    ((applyTypedResult decode (Except.error e) entity has_from_entity).broadcast
        = [TypedEmission.failure e none])
    ∧ ((applyTypedResult decode (Except.error e) entity has_from_entity).triggered = []) :=
  ⟨rfl, rfl⟩

/-- C4.  On the typed path, a transport-successful response whose body
fails to deserialize yields a typed failure envelope carrying the parse
error message together with the original raw response, on both the
broadcast channel and the per-identity trigger, and the raw response bytes
are recoverable from that envelope. -/
theorem C4_parse_failure_roundtrip (T : Type) (decode : List UInt8 → Except String T)
    (resp : Response) (e : String) (entity : Entity) (has_from_entity : Bool)
    (h : decode resp.bytes = Except.error e) :
    ((applyTypedResult decode (Except.ok resp) entity has_from_entity).broadcast
        = [TypedEmission.failure e (some resp)])
    ∧ ((applyTypedResult decode (Except.ok resp) entity has_from_entity).triggered
        = [(entity, TypedEmission.failure e (some resp))])
    ∧ ((TypedEmission.failure (T := T) e (some resp)).rawBytes = some resp.bytes) := by
  refine ⟨?_, ?_, rfl⟩ <;> simp [applyTypedResult, h]

/-- C4, witness: a concrete response whose bytes a concrete decoder
rejects; the failure envelope carries the response and its bytes. -/
theorem C4_witness :
    ((applyTypedResult (T := Nat) (fun _ => Except.error "invalid json")
        (Except.ok demoResponse) 3 true).broadcast
        = [TypedEmission.failure "invalid json" (some demoResponse)])
    ∧ ((applyTypedResult (T := Nat) (fun _ => Except.error "invalid json")
        (Except.ok demoResponse) 3 true).triggered
        = [(3, TypedEmission.failure "invalid json" (some demoResponse))])
    ∧ ((TypedEmission.failure (T := Nat) "invalid json" (some demoResponse)).rawBytes
        = some demoResponse.bytes) :=
  C4_parse_failure_roundtrip Nat (fun _ => Except.error "invalid json")
    demoResponse "invalid json" 3 true rfl

/-- C8.  When the envelope carries no caller-supplied identity, dispatch
resolves the owner to the freshly spawned transient entity and every
terminal application — raw or typed, success, parse failure or transport
failure — despawns exactly that entity; when the envelope carries a
caller-supplied identity, no terminal application ever despawns it. -/
theorem C8_identity_lifecycle (from_entity : Option Entity) (fresh : Entity)
    (result : Except String Response) (T : Type)
    (decode : List UInt8 → Except String T) :
    ((applyRawResult result (resolveIdentity from_entity fresh).1
        (resolveIdentity from_entity fresh).2).despawned
        = if from_entity.isNone then some fresh else none)
    ∧ ((applyTypedResult decode result (resolveIdentity from_entity fresh).1
        (resolveIdentity from_entity fresh).2).despawned
        = if from_entity.isNone then some fresh else none) := by
  refine ⟨?_, ?_⟩ <;>
    cases from_entity <;>
      cases result with
      | ok r =>
        first
        | rfl
        | cases hd : decode r.bytes <;> simp [applyTypedResult, resolveIdentity, hd]
      | error e => rfl

/-- A builder URL that is absent, empty, or all whitespace in Rust's sense. -/
def blankUrl (u : Option String) : Prop :=
  u = none ∨ ∃ s : String, u = some s ∧ (rustTrim s).isEmpty = true

/-- C5.  For every builder whose method is set and whose URL is absent,
empty or whitespace-only, both validated builds fail with MissingUrl (and,
being total functions, do not panic). -/
theorem C5_blank_url_missing_url (c : HttpClient) (hm : c.method.isSome = true)
    (hu : blankUrl c.url) :
    c.try_build = Except.error HttpClientBuilderError.MissingUrl
    ∧ c.try_with_type = Except.error HttpClientBuilderError.MissingUrl := by
  obtain ⟨m, hm⟩ := Option.isSome_iff_exists.mp hm
  have hfil : c.url.filter (fun u => !(rustTrim u).isEmpty) = none := by
    rcases hu with h | ⟨s, hs, hblank⟩
    · rw [h]; rfl
    · rw [hs]; simp [Option.filter, hblank]
  constructor
  · simp [HttpClient.try_build, hm, hfil]
  · simp [HttpClient.try_with_type, hm, hfil]

/-- C5, witness: a GET builder whose URL is three spaces. -/
theorem C5_witness :
    ((HttpClient.new.get "   ").try_build
        = Except.error HttpClientBuilderError.MissingUrl)
    ∧ ((HttpClient.new.get "   ").try_with_type
        = Except.error HttpClientBuilderError.MissingUrl) :=
  C5_blank_url_missing_url (HttpClient.new.get "   ") rfl
    (Or.inr ⟨"   ", rfl, rfl⟩)

/-- C6.  json_with_fallback is total (no panic) and: on serialization
failure the body is exactly the declared fallback bytes (the empty-object,
empty-array or null literals, or the caller-supplied bytes); on success the
body is exactly the serialized bytes. -/
theorem C6_json_with_fallback (c : HttpClient) (ser : Except String (List UInt8))
    (fallback : JsonFallback) :
    (∀ e, ser = Except.error e →
        (c.json_with_fallback ser fallback).body = fallback.fallbackData)
    ∧ (∀ bytes, ser = Except.ok bytes →
        (c.json_with_fallback ser fallback).body = bytes) := by
  constructor
  · intro e he; subst he; rfl
  · intro bytes hb; subst hb; rfl

/-- C6, witness: a failing serialization with a custom fallback yields the
caller-supplied bytes, and with the default strategy yields the
empty-object literal bytes. -/
theorem C6_witness :
    (((HttpClient.new.post "http://example.com").json_with_fallback
        (Except.error "boom") (JsonFallback.Custom [1, 2])).body = [1, 2])
    ∧ (((HttpClient.new.post "http://example.com").json_with_fallback
        (Except.error "boom") JsonFallback.EmptyObject).body = [123, 125]) :=
  ⟨(C6_json_with_fallback _ _ _).1 "boom" rfl,
   (C6_json_with_fallback _ _ _).1 "boom" rfl⟩

/-- C7.  json_safe: on serialization failure it returns the
SerializationFailed error carrying the original failure message and the
EmptyObject fallback that would have been used, producing no modified
builder at all; on success it returns the builder with the body set to the
serialized bytes (and the JSON content type added). -/
theorem C7_json_safe (c : HttpClient) (ser : Except String (List UInt8)) :
    (∀ e, ser = Except.error e →
        c.json_safe ser = Except.error
          (JsonSerializationError.SerializationFailed e JsonFallback.EmptyObject))
    ∧ (∀ bytes, ser = Except.ok bytes →
        c.json_safe ser = Except.ok { c.setJsonContentType with body := bytes }) := by
  constructor
  · intro e he; subst he; rfl
  · intro bytes hb; subst hb; rfl

/-- C7, witness: a concrete failing serialization surfaces the message and
the intended fallback; a concrete succeeding one sets the body. -/
theorem C7_witness :
    ((HttpClient.new.post "http://example.com").json_safe (Except.error "boom")
        = Except.error
            (JsonSerializationError.SerializationFailed "boom" JsonFallback.EmptyObject))
    ∧ ((HttpClient.new.post "http://example.com").json_safe (Except.ok [7])
        = Except.ok
            { (HttpClient.new.post "http://example.com").setJsonContentType with body := [7] }) :=
  ⟨(C7_json_safe _ _).1 "boom" rfl, (C7_json_safe _ _).2 [7] rfl⟩

/-- C9.  For every builder state with no method set, both validated builds
fail with MissingMethod, whatever the other fields hold. -/
theorem C9_missing_method (c : HttpClient) (h : c.method = none) :
    c.try_build = Except.error HttpClientBuilderError.MissingMethod
    ∧ c.try_with_type = Except.error HttpClientBuilderError.MissingMethod := by
  constructor
  · simp [HttpClient.try_build, h]
  · simp [HttpClient.try_with_type, h]

/-- C9, witness: a methodless builder with URL, body and headers all
present still fails with MissingMethod. -/
theorem C9_witness :
    ({ from_entity := some 4, method := none, url := some "http://example.com"
       body := [1], headers := some (Headers.new []) : HttpClient }.try_build
        = Except.error HttpClientBuilderError.MissingMethod)
    ∧ ({ from_entity := some 4, method := none, url := some "http://example.com"
         body := [1], headers := some (Headers.new []) : HttpClient }.try_with_type
        = Except.error HttpClientBuilderError.MissingMethod) :=
  C9_missing_method _ rfl

/-- Every fluent builder operation leaves the header set present when it
was present (most of them force it present outright). -/
theorem applyOp_headers_isSome (c : HttpClient) (op : BuilderOp)
    (h : c.headers.isSome = true) : ((applyOp c op).headers).isSome = true := by
  cases op with
  | json_with_fallback ser fallback =>
    obtain ⟨hs, hh⟩ := Option.isSome_iff_exists.mp h
    cases ser <;>
      simp [applyOp, HttpClient.json_with_fallback, HttpClient.setJsonContentType, hh]
  | json ser =>
    obtain ⟨hs, hh⟩ := Option.isSome_iff_exists.mp h
    cases ser <;>
      simp [applyOp, HttpClient.json, HttpClient.json_with_fallback,
        HttpClient.setJsonContentType, hh]
  | _ =>
    simp_all [applyOp, HttpClient.get, HttpClient.post, HttpClient.put,
      HttpClient.patch, HttpClient.delete, HttpClient.head, HttpClient.set_headers,
      HttpClient.entity, HttpClient.request]

/-- A chain of fluent operations from HttpClient::new always has headers. -/
theorem buildChain_headers_isSome (ops : List BuilderOp) :
    ((buildChain ops).headers).isSome = true := by
  suffices h : ∀ c : HttpClient, c.headers.isSome = true →
      ((ops.foldl applyOp c).headers).isSome = true by
    exact h HttpClient.new rfl
  induction ops with
  | nil => intro c hc; simpa using hc
  | cons op ops ih =>
    intro c hc
    exact ih (applyOp c op) (applyOp_headers_isSome c op hc)

/-- A builder whose headers are present can never fail with MissingHeaders. -/
theorem try_build_no_missing_headers (c : HttpClient) (h : c.headers.isSome = true) :
    c.try_build ≠ Except.error HttpClientBuilderError.MissingHeaders
    ∧ c.try_with_type ≠ Except.error HttpClientBuilderError.MissingHeaders := by
  obtain ⟨hs, hh⟩ := Option.isSome_iff_exists.mp h
  constructor
  · unfold HttpClient.try_build
    cases hm : c.method with
    | none => simp
    | some m =>
      cases hu : c.url.filter (fun u => !(rustTrim u).isEmpty) with
      | none => simp
      | some u => rw [hh]; simp
  · unfold HttpClient.try_with_type
    cases hm : c.method with
    | none => simp
    | some m =>
      cases hu : c.url.filter (fun u => !(rustTrim u).isEmpty) with
      | none => simp
      | some u => rw [hh]; simp

/-- C10.  Every builder reachable from HttpClient::new through the fluent
API keeps a present header set (new starts with Accept any, and no
operation clears it), so neither try_build nor try_with_type can ever
return MissingHeaders on such a builder: that error branch is unreachable
through the public construction API. -/
theorem C10_missing_headers_unreachable (ops : List BuilderOp) :
    ((buildChain ops).headers).isSome = true
    ∧ (buildChain ops).try_build ≠ Except.error HttpClientBuilderError.MissingHeaders
    ∧ (buildChain ops).try_with_type ≠ Except.error HttpClientBuilderError.MissingHeaders := by
  have h := buildChain_headers_isSome ops
  have h2 := try_build_no_missing_headers (buildChain ops) h
  exact ⟨h, h2.1, h2.2⟩

end BevyHttp
